import Mathlib

/-!
Shallow embedding of `luigi/parameter.py` (typed parameter declaration and
value resolution).  Pure Python functions become Lean functions; the ambient
configuration (`configuration.get_config()`) is passed explicitly as a
`Config` value; exceptions become `Except` results.  Regex-based grammars
(`TimeDeltaParameter`, `strptime`) are embedded as deterministic character
scanners that reproduce the regexes' match semantics (the regexes involved are
such that in-order alternation with greedy repetition is equivalent to full
backtracking; this is argued in comments at each scanner).
-/

deriving instance DecidableEq for Except

namespace Luigi

/-- Error taxonomy of `parameter.py`.  `parameterException` covers
`ParameterException` (declaration errors and the invalid-time-delta error),
`missingParameter` is `MissingParameterException`, `unknownConfig` is
`UnknownConfigException`.  `keyError` and `valueError` model the Python
built-in exceptions that the coercers let escape (`KeyError` from
`BooleanParameter.parse`, `ValueError` from `int()` / `strptime` /
`datetime`). -/
inductive PError
  | missingParameter (msg : String)
  | unknownConfig (msg : String)
  | parameterException (msg : String)
  | keyError (msg : String)
  | valueError (msg : String)
deriving DecidableEq

/-- The external configuration store (`configuration.get_config()`): a lookup
keyed by section and option name, plus the list of searched config-file paths
(`conf._config_paths`) that appears in the `UnknownConfigException` text. -/
structure Config where
  lookup : String → String → Option String
  config_paths : List String

/-- A resolved parameter value as Python's dynamic typing produces it: a
single parsed scalar, a tuple/list of parsed scalars (list parameters), or the
bare Python bool `False` that `parse_from_input` returns for an unset boolean
parameter. -/
inductive PValue (α : Type)
  | scalar (a : α)
  | list (l : List α)
  | bool (b : Bool)
deriving DecidableEq

/-- Python's `str.strip()` whitespace set: space, tab, newline, carriage
return, vertical tab, form feed. -/
def pyIsSpace (c : Char) : Bool :=
  c = ' ' || c = '\t' || c = '\n' || c = '\r' || c = '\x0b' || c = '\x0c'

/-- Python's `str.strip()` on a character list: drop whitespace from both
ends. -/
def pyStripList (l : List Char) : List Char :=
  ((l.dropWhile pyIsSpace).reverse.dropWhile pyIsSpace).reverse

/-- Python's `str.strip()`. -/
def pyStrip (s : String) : String :=
  String.mk (pyStripList s.data)

/-- Python's `str.split(sep)` for a one-character separator: empty pieces are
kept, and splitting the empty string gives one empty piece. -/
def pySplitChar (sep : Char) : List Char → List (List Char)
  | [] => [[]]
  | c :: t =>
    match pySplitChar sep t with
    | [] => [[]]
    | h :: r => if c = sep then [] :: h :: r else (c :: h) :: r

/-- Python's `value.split('\n')`. -/
def pySplitNewlines (s : String) : List String :=
  (pySplitChar '\n' s.data).map String.mk

/-- Python 2's `str.lower()`: ASCII-only lowercasing. -/
def pyLower (s : String) : String :=
  String.mk (s.data.map (fun c => if 'A' ≤ c ∧ c ≤ 'Z' then Char.ofNat (c.toNat + 32) else c))

/-- `param_name.replace('_', '-')`: with a one-character pattern and
replacement, Python's `str.replace` is a per-character map. -/
def hyphenate (s : String) : String :=
  String.mk (s.data.map (fun c => if c = '_' then '-' else c))

/-- The `Parameter` object state after a successful `__init__`.  `_default`
models the name-mangled `self.__default` slot (`none` is the `_no_default`
sentinel); `parse` is the scalar coercer method that subclasses override
(the base implementation is the identity on strings).  The process-wide
declaration counter value assigned at construction is kept in `counter`. -/
structure Parameter (α : Type) where
  _default : Option (PValue α)
  is_list : Bool
  is_boolean : Bool
  is_global : Bool
  significant : Bool
  description : Option String
  default_from_config : Option (String × String)
  parse : String → Except PError α
  counter : Nat

/-- The `UnknownConfigException` message format:
`"Couldn't find value for section={0} name={1}. Search config files: '{2}'"`
with `{2}` the comma-joined `conf._config_paths`. -/
def unknownMsg (sec name : String) (paths : List String) : String :=
  "Couldn't find value for section=" ++ sec ++ " name=" ++ name ++
    ". Search config files: '" ++ String.intercalate ", " paths ++ "'"

/-- `Parameter.__init__`: fails (`ParameterException`, the declaration error)
when `is_global` is set with neither default source supplied, or when both a
literal default and `default_from_config` are supplied; otherwise builds the
object.  As in the source, `is_boolean` is forced to false for list
parameters.  The `default_from_config` dict with its `section`/`name` keys is
modeled as a pair, so the source's missing-key check cannot fire. -/
def Parameter.make {α : Type} (parse : String → Except PError α) (counter : Nat)
    (default_ : Option (PValue α)) (is_list is_boolean is_global significant : Bool)
    (description : Option String) (default_from_config : Option (String × String)) :
    Except PError (Parameter α) :=
  if is_global && default_.isNone && default_from_config.isNone then
    .error (.parameterException "Global parameters need default values")
  else if default_.isSome && default_from_config.isSome then
    .error (.parameterException "Can only specify either a default or a default_from_config")
  else
    .ok { _default := default_
          is_list := is_list
          is_boolean := is_boolean && !is_list
          is_global := is_global
          significant := significant
          description := description
          default_from_config := default_from_config
          parse := parse
          counter := counter }

/-- `Parameter.has_default`: when `default_from_config` is set, a safe config
lookup (`_get_default_from_config(safe=True)`, a miss folded to `None`);
otherwise the `__default != _no_default` sentinel test. -/
def Parameter.has_default {α : Type} (p : Parameter α) (cfg : Config) : Bool :=
  match p.default_from_config with
  | some (sec, name) => (cfg.lookup sec name).isSome
  | none => p._default.isSome

/-- `Parameter.default`: `MissingParameterException` when neither source is
set; the literal `__default` when present; otherwise an unsafe config lookup
(`_get_default_from_config(safe=False)`, a miss raises
`UnknownConfigException`) whose raw string is coerced — split/strip/parse per
line for list parameters, a single `parse` otherwise. -/
def Parameter.default {α : Type} (p : Parameter α) (cfg : Config) :
    Except PError (PValue α) :=
  match p._default, p.default_from_config with
  | none, none => .error (.missingParameter "No default specified")
  | some v, _ => .ok v
  | none, some (sec, name) =>
    match cfg.lookup sec name with
    | none => .error (.unknownConfig (unknownMsg sec name cfg.config_paths))
    | some value =>
      if p.is_list then
        PValue.list <$> (pySplitNewlines (pyStrip value)).mapM (fun line => p.parse (pyStrip line))
      else
        PValue.scalar <$> p.parse value

/-- `Parameter.set_default`: overwrite the `__default` slot in place with an
already-typed value, bypassing both the config store and the coercer. -/
def Parameter.set_default {α : Type} (p : Parameter α) (value : PValue α) : Parameter α :=
  { p with _default := some value }

/-- Raw input handed to `parse_from_input`: nothing (`None`), a single raw
string, or an ordered list of raw strings. -/
inductive RawInput
  | noInput
  | str (s : String)
  | strList (l : List String)

/-- Python falsiness of the raw input (`not x`): `None`, the empty string and
the empty list are falsy. -/
def RawInput.falsy : RawInput → Bool
  | .noInput => true
  | .str s => s.isEmpty
  | .strList l => l.isEmpty

/-- The `MissingParameterException` message raised by `parse_from_input`:
`"No value for '%s' (%s) submitted and no default value has been assigned."`
where the second slot is `"--" + param_name.replace('_', '-')`. -/
def missingMsg (param_name : String) : String :=
  "No value for '" ++ param_name ++ "' (" ++ ("--" ++ hyphenate param_name) ++
    ") submitted and no default value has been assigned."

/-- `Parameter.parse_from_input`.  A falsy input resolves to the default when
one is available, then to `False` for boolean parameters, then to the empty
tuple for list parameters, and otherwise raises `MissingParameterException`.
A non-falsy input is coerced: element-wise for a list parameter (a bare
string handed to a list parameter is iterated character by character, as
Python iterates strings), a single `parse` for a scalar parameter.  A list
handed to a scalar parameter reaches `self.parse(x)` with a non-string
argument; the typed coercers raise `TypeError` there, modeled as
`valueError` (no claim exercises this arm). -/
def Parameter.parse_from_input {α : Type} (p : Parameter α) (cfg : Config)
    (param_name : String) (x : RawInput) : Except PError (PValue α) :=
  if x.falsy then
    if p.has_default cfg then p.default cfg
    else if p.is_boolean then .ok (.bool false)
    else if p.is_list then .ok (.list [])
    else .error (.missingParameter (missingMsg param_name))
  else if p.is_list then
    match x with
    | .strList l => PValue.list <$> l.mapM p.parse
    | .str s => PValue.list <$> (s.data.map (fun c => String.mk [c])).mapM p.parse
    | .noInput => .error (.valueError "unreachable: None is falsy")
  else
    match x with
    | .str s => PValue.scalar <$> p.parse s
    | .strList _ => .error (.valueError "TypeError: expected a string")
    | .noInput => .error (.valueError "unreachable: None is falsy")

/-- The base `Parameter.parse` implementation: the identity on the raw
string. -/
def identityParse : String → Except PError String := fun x => .ok x

/-- `BooleanParameter.parse`: `{'true': True, 'false': False}[str(s).lower()]`.
A key miss raises `KeyError` whose single argument is the lowercased string
(Python 2 `str.lower` is ASCII-only, as is Lean's `Char.toLower`). -/
def booleanParse (s : String) : Except PError Bool :=
  let l := pyLower s
  if l = "true" then .ok true
  else if l = "false" then .ok false
  else .error (.keyError l)

/-! ## TimeDeltaParameter

The two duration regexes are embedded as character scanners.  Both regexes
are built from greedy pieces `\d+`, a literal designator character, optional
literal words and an optional single space; after a digit run the next
expected character is never a digit, so the regex engine's backtracking into
`\d+` can never produce a match the greedy scan misses, and every optional
piece that is skipped on a greedy failure would make the overall group fail
as well (the following mandatory character is always distinct).  Hence the
deterministic scanners below compute exactly `re.match`'s named groups. -/

/-- Greedy digit run continuing an already-started integer (the tail of
`\d+`). -/
def readDigits (acc : Nat) : List Char → Nat × List Char
  | [] => (acc, [])
  | c :: cs =>
    if c.isDigit then readDigits (acc * 10 + (c.toNat - 48)) cs else (acc, c :: cs)

/-- `\d+`: at least one digit, greedy, returning the integer value of the
matched digits. -/
def readNat : List Char → Option (Nat × List Char)
  | [] => none
  | c :: cs =>
    if c.isDigit then some (readDigits (c.toNat - 48) cs) else none

/-- One ISO-8601 field `(?P<key>\d+)X` with `X` the single uppercase
designator (`field(key)` in the source). -/
def isoField (des : Char) (l : List Char) : Option (Nat × List Char) :=
  match readNat l with
  | some (n, d :: rest) => if d = des then some (n, rest) else none
  | _ => none

/-- `optional_field(key)`: the field if it matches here, else zero with no
input consumed. -/
def isoOpt (des : Char) (l : List Char) : Nat × List Char :=
  match isoField des l with
  | some r => r
  | none => (0, l)

/-- The five named duration groups (`groupdict(default="0")`, so a group that
did not participate is 0). -/
structure TDFields where
  weeks : Nat
  days : Nat
  hours : Nat
  minutes : Nat
  seconds : Nat
deriving DecidableEq

/-- `has_val` in `apply_regex`: some captured field is non-zero. -/
def hasVal (f : TDFields) : Bool :=
  (f.weeks != 0) || (f.days != 0) || (f.hours != 0) || (f.minutes != 0) || (f.seconds != 0)

/-- `datetime.timedelta(**kwargs)` collapsed to a duration in seconds. -/
def toSeconds (f : TDFields) : Nat :=
  f.weeks * 604800 + f.days * 86400 + f.hours * 3600 + f.minutes * 60 + f.seconds

/-- `re.match` of the ISO-8601 duration regex
`P((?P<weeks>\d+)W|((?P<days>\d+)D)?(T((?P<hours>\d+)H)?((?P<minutes>\d+)M)?((?P<seconds>\d+)S)?)?)`:
no match unless the input starts with `P`; the weeks alternative is tried
first, and the second alternative (everything optional) always matches. -/
def isoScan : List Char → Option TDFields
  | 'P' :: rest =>
    match isoField 'W' rest with
    | some (w, _) => some ⟨w, 0, 0, 0, 0⟩
    | none =>
      let (d, r1) := isoOpt 'D' rest
      match r1 with
      | 'T' :: r2 =>
        let (h, r3) := isoOpt 'H' r2
        let (m, r4) := isoOpt 'M' r3
        let (s, _) := isoOpt 'S' r4
        some ⟨0, d, h, m, s⟩
      | _ => some ⟨0, d, 0, 0, 0⟩
  | _ => none

/-- `apply_regex`'s all-fields-zero gate applied to a grammar's match
result: a match whose fields are all zero yields `None`. -/
def applyFields : Option TDFields → Option Nat
  | some f => if hasVal f then some (toSeconds f) else none
  | none => none

/-- `TimeDeltaParameter.parseIso8601`. -/
def parseIso8601 (input : String) : Option Nat :=
  applyFields (isoScan input.data)

/-- `(word)?`: consume the literal word if it is a prefix of the input. -/
def stripWordOpt (word : List Char) (l : List Char) : List Char :=
  if word.isPrefixOf l then l.drop word.length else l

/-- `(c)?` for a single literal character: consume it if present. -/
def stripCharOpt (c : Char) (l : List Char) : List Char :=
  match l with
  | c' :: rest => if c' = c then rest else l
  | [] => l

/-- One shorthand group `((?P<key>\d+) ?c(rest-of-word)?(s)? ?)?` with `c`
the first letter of the unit (`parseSimple` builds one such group per unit;
the final optional character is the unit's plural `s` for every unit).
Returns the captured integer and the remaining input, or `none` when the
group does not participate. -/
def simpleGroup (c1 : Char) (word : List Char) (l : List Char) :
    Option (Nat × List Char) :=
  match readNat l with
  | none => none
  | some (n, r1) =>
    match stripCharOpt ' ' r1 with
    | c :: r3 =>
      if c = c1 then
        some (n, stripCharOpt ' ' (stripCharOpt 's' (stripWordOpt word r3)))
      else none
    | [] => none

/-- A skipped optional group: zero, no input consumed. -/
def simpleOpt (c1 : Char) (word : List Char) (l : List Char) : Nat × List Char :=
  match simpleGroup c1 word l with
  | some r => r
  | none => (0, l)

/-- `re.match` of the shorthand regex of `parseSimple` — the concatenation of
the five optional unit groups in the order weeks, days, hours, minutes,
seconds.  Every group is optional, so the regex always matches (possibly the
empty prefix); the named groups are computed left to right. -/
def simpleScan (l : List Char) : TDFields :=
  let (w, l1) := simpleOpt 'w' ['e', 'e', 'k'] l
  let (d, l2) := simpleOpt 'd' ['a', 'y'] l1
  let (h, l3) := simpleOpt 'h' ['o', 'u', 'r'] l2
  let (m, l4) := simpleOpt 'm' ['i', 'n', 'u', 't', 'e'] l3
  let (s, _) := simpleOpt 's' ['e', 'c', 'o', 'n', 'd'] l4
  ⟨w, d, h, m, s⟩

/-- `TimeDeltaParameter.parseSimple`. -/
def parseSimple (input : String) : Option Nat :=
  applyFields (some (simpleScan input.data))

/-- `TimeDeltaParameter.parse`: try the ISO-8601 grammar, then the shorthand
grammar; if neither produces a (necessarily non-zero, hence truthy) result,
raise `ParameterException("Invalid time delta - could not parse %s")`. -/
def timeDeltaParse (input : String) : Except PError Nat :=
  match parseIso8601 input with
  | some v => .ok v
  | none =>
    match parseSimple input with
    | some v => .ok v
    | none => .error (.parameterException ("Invalid time delta - could not parse " ++ input))

/-! ## DateHourParameter

`DateHourParameter.parse` is `datetime.datetime.strptime(s, "%Y-%m-%dT%H")`.
CPython's `_strptime` compiles the format to the regex
`(?P<Y>\d\d\d\d)\-(?P<m>1[0-2]|0[1-9]|[1-9])\-(?P<d>3[01]|[12]\d|0[1-9]|[1-9])T(?P<H>2[0-3]|[0-1]\d|\d)`
and requires the match to consume the whole input; the captured numbers are
then validated by the `datetime` constructor (year at least 1, day within the
month, leap years included).  In every directive's alternation, whenever an
earlier alternative matches locally but the following literal fails, the
shorter alternative leaves a digit in front of that literal, which fails as
well, so the in-order deterministic scanners below are equivalent to the
backtracking regex.  `serialize` is `strftime('%Y-%m-%dT%H')`, which in
Python 2 additionally requires the year to be at least 1900. -/

/-- Numeric value of an ASCII digit character. -/
def charVal (c : Char) : Nat := c.toNat - 48

/-- The captured instant: year, month, day and hour of a
`datetime.datetime` (minutes and smaller are zero here). -/
structure DateTimeYMDH where
  year : Nat
  month : Nat
  day : Nat
  hour : Nat
deriving DecidableEq

/-- `%Y`: exactly four digits. -/
def scanYear4 : List Char → Option (Nat × List Char)
  | a :: b :: c :: d :: rest =>
    if a.isDigit ∧ b.isDigit ∧ c.isDigit ∧ d.isDigit then
      some (((charVal a * 10 + charVal b) * 10 + charVal c) * 10 + charVal d, rest)
    else none
  | _ => none

/-- `%m`: `1[0-2]|0[1-9]|[1-9]`, alternatives in this order. -/
def scanMonth : List Char → Option (Nat × List Char)
  | a :: b :: rest =>
    if a = '1' ∧ '0' ≤ b ∧ b ≤ '2' then some (10 + charVal b, rest)
    else if a = '0' ∧ '1' ≤ b ∧ b ≤ '9' then some (charVal b, rest)
    else if '1' ≤ a ∧ a ≤ '9' then some (charVal a, b :: rest)
    else none
  | [a] => if '1' ≤ a ∧ a ≤ '9' then some (charVal a, []) else none
  | [] => none

/-- `%d`: `3[01]|[12]\d|0[1-9]|[1-9]`, alternatives in this order. -/
def scanDay : List Char → Option (Nat × List Char)
  | a :: b :: rest =>
    if a = '3' ∧ '0' ≤ b ∧ b ≤ '1' then some (30 + charVal b, rest)
    else if ('1' ≤ a ∧ a ≤ '2') ∧ b.isDigit then some (charVal a * 10 + charVal b, rest)
    else if a = '0' ∧ '1' ≤ b ∧ b ≤ '9' then some (charVal b, rest)
    else if '1' ≤ a ∧ a ≤ '9' then some (charVal a, b :: rest)
    else none
  | [a] => if '1' ≤ a ∧ a ≤ '9' then some (charVal a, []) else none
  | [] => none

/-- `%H`: `2[0-3]|[0-1]\d|\d`, alternatives in this order. -/
def scanHour : List Char → Option (Nat × List Char)
  | a :: b :: rest =>
    if a = '2' ∧ '0' ≤ b ∧ b ≤ '3' then some (20 + charVal b, rest)
    else if ('0' ≤ a ∧ a ≤ '1') ∧ b.isDigit then some (charVal a * 10 + charVal b, rest)
    else if a.isDigit then some (charVal a, b :: rest)
    else none
  | [a] => if a.isDigit then some (charVal a, []) else none
  | [] => none

/-- A scanned number followed by the literal `-` of the format. -/
def stepDash : Option (Nat × List Char) → Option (Nat × List Char)
  | some (v, c :: r) => if c = '-' then some (v, r) else none
  | _ => none

/-- A scanned number followed by the literal `T` of the format. -/
def stepT : Option (Nat × List Char) → Option (Nat × List Char)
  | some (v, c :: r) => if c = 'T' then some (v, r) else none
  | _ => none

/-- A scanned number that must end the input (strptime rejects unconverted
trailing data). -/
def stepEnd : Option (Nat × List Char) → Option Nat
  | some (v, []) => some v
  | _ => none

/-- The full `%Y-%m-%dT%H` regex match over the whole input: year, literal
hyphen, month, literal hyphen, day, literal `T`, hour, end of input. -/
def dateHourScan (l : List Char) : Option DateTimeYMDH :=
  (stepDash (scanYear4 l)).bind fun yr =>
    (stepDash (scanMonth yr.2)).bind fun mr =>
      (stepT (scanDay mr.2)).bind fun dr =>
        (stepEnd (scanHour dr.2)).map fun h => ⟨yr.1, mr.1, dr.1, h⟩

/-- Gregorian leap year, as `datetime` uses it. -/
def isLeap (y : Nat) : Bool :=
  y % 4 = 0 && (y % 100 != 0 || y % 400 = 0)

/-- Length of a month, as the `datetime` constructor validates days. -/
def daysInMonth (y m : Nat) : Nat :=
  if m = 2 then (if isLeap y then 29 else 28)
  else if m = 4 ∨ m = 6 ∨ m = 9 ∨ m = 11 then 30
  else 31

/-- `DateHourParameter.parse`: the strptime regex match, then the `datetime`
constructor's range validation (the regex already bounds month to 1..12, day
to 1..31 and hour to 0..23, so only the year-0 and day-of-month checks can
still fail). -/
def dateHourParse (s : String) : Except PError DateTimeYMDH :=
  match dateHourScan s.data with
  | none => .error (.valueError ("time data " ++ s ++ " does not match format %Y-%m-%dT%H"))
  | some v =>
    if v.year = 0 then .error (.valueError "year 0 is out of range")
    else if daysInMonth v.year v.month < v.day then
      .error (.valueError "day is out of range for month")
    else .ok v

/-- Two-digit zero-padded decimal rendering (strftime's `%m`, `%d`, `%H`). -/
def pad2L (n : Nat) : List Char :=
  [Nat.digitChar (n / 10 % 10), Nat.digitChar (n % 10)]

/-- Four-digit zero-padded decimal rendering (strftime's `%Y` for years up to
9999). -/
def pad4L (n : Nat) : List Char :=
  [Nat.digitChar (n / 1000 % 10), Nat.digitChar (n / 100 % 10),
   Nat.digitChar (n / 10 % 10), Nat.digitChar (n % 10)]

/-- The text `strftime('%Y-%m-%dT%H')` produces. -/
def strftimeYmdTH (v : DateTimeYMDH) : String :=
  String.mk (pad4L v.year ++ '-' :: (pad2L v.month ++ '-' :: (pad2L v.day ++ 'T' :: pad2L v.hour)))

/-- `DateHourParameter.serialize`: `dt.strftime('%Y-%m-%dT%H')`.  Python 2's
`datetime.strftime` raises `ValueError` for years before 1900. -/
def dateHourSerialize (v : DateTimeYMDH) : Except PError String :=
  if v.year < 1900 then
    .error (.valueError "year is before 1900; the datetime strftime() methods require year >= 1900")
  else .ok (strftimeYmdTH v)

/-- Modelled from the spec: a string of the strict `YYYY-MM-DDTHH` shape
(literal `T` separator, hour 00-23) — four digits, a hyphen, two digits, a
hyphen, two digits, a literal `T`, and a two-digit hour of at most 23.  This
is the spec's wording of the DateHour grammar, stated for comparison with
the behaviour of `dateHourParse` (which embeds the source). -/
def isStrictDateHourString (s : String) : Prop :=
  ∃ y m d h, y ≤ 9999 ∧ m ≤ 99 ∧ d ≤ 99 ∧ h ≤ 23 ∧ s = strftimeYmdTH ⟨y, m, d, h⟩

/-! ## Concrete instances used to exercise the theorems -/

/-- Contiguous-sublist test at any starting position. -/
def listInfixAux (pat : List Char) : List Char → Bool
  | [] => pat.isEmpty
  | c :: t => pat.isPrefixOf (c :: t) || listInfixAux pat t

/-- Boolean substring test (used to state what an error message does not
contain). -/
def strContainsSub (hay pat : String) : Bool :=
  listInfixAux pat.data hay.data

/-- A config store with no entries. -/
def cfgEmpty : Config :=
  ⟨fun _ _ => none, ["/etc/luigi/client.cfg"]⟩

/-- A config store holding one entry `[s] k = v`. -/
def cfgHit : Config :=
  ⟨fun sec name => if sec = "s" ∧ name = "k" then some "v" else none, ["/etc/luigi/client.cfg"]⟩

/-- A config store whose `[s] k` value contains an interior blank line. -/
def cfgLines : Config :=
  ⟨fun sec name => if sec = "s" ∧ name = "k" then some "a\n\nb" else none, ["/etc/luigi/client.cfg"]⟩

/-- A plain scalar descriptor with no default (the base `Parameter()` with the
identity coercer). -/
def pScalar : Parameter String :=
  { _default := none, is_list := false, is_boolean := false, is_global := false,
    significant := true, description := none, default_from_config := none,
    parse := identityParse, counter := 0 }

/-- A descriptor with a literal default. -/
def pLit : Parameter String :=
  { pScalar with _default := some (.scalar "x") }

/-- A descriptor with only `default_from_config = {section: s, name: k}`. -/
def pCfg : Parameter String :=
  { pScalar with default_from_config := some ("s", "k") }

/-- A list descriptor with only `default_from_config`. -/
def pCfgList : Parameter String :=
  { pScalar with is_list := true, default_from_config := some ("s", "k") }

/-- A global descriptor whose only default source is `default_from_config`. -/
def pGlobalCfg : Parameter String :=
  { pScalar with is_global := true, default_from_config := some ("s", "k") }

/-! ## Claims -/

/-- Claim C1: for every descriptor, `parse_from_input` with a falsy raw input
(empty string, empty sequence, or absent) resolves in this order: default when
`has_default`, then `False` for booleans, then the empty sequence for lists,
and otherwise fails with `MissingParameterException` whose message contains
the parameter name and the flag-style hint `--` followed by the name with
underscores replaced by hyphens. -/
theorem C1_parse_from_input_falsy {α : Type} (p : Parameter α) (cfg : Config)
    (param_name : String) (x : RawInput) (hx : x.falsy = true) :
    p.parse_from_input cfg param_name x =
      (if p.has_default cfg then p.default cfg
       else if p.is_boolean then .ok (.bool false)
       else if p.is_list then .ok (.list [])
       else .error (.missingParameter (missingMsg param_name))) ∧
    (∃ a b, missingMsg param_name = a ++ param_name ++ b) ∧
    (∃ a b, missingMsg param_name =
      a ++ ("--" ++ hyphenate param_name) ++ b) := by
  refine ⟨by simp [Parameter.parse_from_input, hx], ?_, ?_⟩
  · exact ⟨"No value for '",
      "' (" ++ ("--" ++ hyphenate param_name) ++
        ") submitted and no default value has been assigned.",
      by simp [missingMsg, String.append_assoc]⟩
  · exact ⟨"No value for '" ++ param_name ++ "' (",
      ") submitted and no default value has been assigned.",
      by simp [missingMsg, String.append_assoc]⟩

/-- Witness for C1 at a concrete falsy input: a scalar descriptor with no
default and the empty-string input raises the missing-parameter error. -/
theorem C1_parse_from_input_falsy_witness :
    pScalar.parse_from_input cfgEmpty "my_param" (.str "") =
      .error (.missingParameter (missingMsg "my_param")) :=
  (C1_parse_from_input_falsy pScalar cfgEmpty "my_param" (.str "") (by decide)).1.trans
    (by decide)

/-- Claim C2: the default/has_default contract — a literal default makes
`has_default` true and `default` return the literal unchanged for every
store; with only `default_from_config`, `has_default` mirrors the store and
`default` either fails with `UnknownConfigException` naming section, key and
the searched locations, or returns the coerced store value; with neither
source, `default` fails with `MissingParameterException`. -/
theorem C2_default_contract {α : Type} (p : Parameter α) (cfg : Config) :
    (∀ v, p._default = some v → p.default_from_config = none →
      p.has_default cfg = true ∧ p.default cfg = .ok v) ∧
    (∀ sec key, p._default = none → p.default_from_config = some (sec, key) →
      (p.has_default cfg = (cfg.lookup sec key).isSome) ∧
      (cfg.lookup sec key = none →
        p.default cfg = .error (.unknownConfig (unknownMsg sec key cfg.config_paths)) ∧
        (∃ a b, unknownMsg sec key cfg.config_paths = a ++ sec ++ b) ∧
        (∃ a b, unknownMsg sec key cfg.config_paths = a ++ key ++ b) ∧
        (∃ a b, unknownMsg sec key cfg.config_paths =
          a ++ String.intercalate ", " cfg.config_paths ++ b)) ∧
      (∀ raw, cfg.lookup sec key = some raw →
        p.default cfg =
          if p.is_list then
            PValue.list <$> (pySplitNewlines (pyStrip raw)).mapM (fun line => p.parse (pyStrip line))
          else PValue.scalar <$> p.parse raw)) ∧
    (p._default = none → p.default_from_config = none →
      p.default cfg = .error (.missingParameter "No default specified")) := by
  refine ⟨?_, ?_, ?_⟩
  · intro v h1 h2
    constructor
    · simp [Parameter.has_default, h1, h2]
    · simp [Parameter.default, h1, h2]
  · intro sec key h1 h2
    refine ⟨by simp [Parameter.has_default, h2], ?_, ?_⟩
    · intro hmiss
      refine ⟨by simp [Parameter.default, h1, h2, hmiss], ?_, ?_, ?_⟩
      · exact ⟨"Couldn't find value for section=",
          " name=" ++ key ++ ". Search config files: '" ++
            String.intercalate ", " cfg.config_paths ++ "'",
          by simp [unknownMsg, String.append_assoc]⟩
      · exact ⟨"Couldn't find value for section=" ++ sec ++ " name=",
          ". Search config files: '" ++ String.intercalate ", " cfg.config_paths ++ "'",
          by simp [unknownMsg, String.append_assoc]⟩
      · exact ⟨"Couldn't find value for section=" ++ sec ++ " name=" ++ key ++
            ". Search config files: '", "'",
          by simp [unknownMsg, String.append_assoc]⟩
    · intro raw hhit
      simp [Parameter.default, h1, h2, hhit]
  · intro h1 h2
    simp [Parameter.default, h1, h2]

/-- Witness for C2 exercising all three branches on concrete descriptors and
stores. -/
theorem C2_default_contract_witness :
    (pLit.has_default cfgEmpty = true ∧ pLit.default cfgEmpty = .ok (.scalar "x")) ∧
    (pCfg.has_default cfgEmpty = (cfgEmpty.lookup "s" "k").isSome) ∧
    (pCfg.default cfgEmpty = .error (.unknownConfig (unknownMsg "s" "k" cfgEmpty.config_paths))) ∧
    (pCfg.default cfgHit =
      if pCfg.is_list then
        PValue.list <$> (pySplitNewlines (pyStrip "v")).mapM (fun line => pCfg.parse (pyStrip line))
      else PValue.scalar <$> pCfg.parse "v") ∧
    (pScalar.default cfgEmpty = .error (.missingParameter "No default specified")) :=
  ⟨(C2_default_contract pLit cfgEmpty).1 (.scalar "x") rfl rfl,
   ((C2_default_contract pCfg cfgEmpty).2.1 "s" "k" rfl rfl).1,
   ((((C2_default_contract pCfg cfgEmpty).2.1 "s" "k" rfl rfl).2.1) rfl).1,
   ((C2_default_contract pCfg cfgHit).2.1 "s" "k" rfl rfl).2.2 "v" (by decide),
   (C2_default_contract pScalar cfgEmpty).2.2 rfl rfl⟩

/-- Modelled from the spec: "split the raw text on newlines, trim whitespace
per line, parse each non-empty line through the scalar coercer, return an
ordered sequence preserving line order" — the spec's wording of the
config-derived list default, stated for comparison with the source's
behaviour in `Parameter.default`. -/
def specListCoerce {α : Type} (parse : String → Except PError α) (raw : String) :
    Except PError (List α) :=
  (((pySplitNewlines raw).map pyStrip).filter (fun line => line ≠ "")).mapM parse

/-- Counterexample to C3 as stated: on the store value `"a\n\nb"` the code
parses the interior blank line too (the tuple is `("a", "", "b")`), while the
claim's "parse each non-empty line" would give `("a", "b")`. -/
theorem C3_counterexample :
    pCfgList.default cfgLines = .ok (.list ["a", "", "b"]) ∧
    specListCoerce identityParse "a\n\nb" = .ok ["a", "b"] ∧
    (PValue.list ["a", "", "b"] : PValue String) ≠ .list ["a", "b"] := by
  refine ⟨by decide, by decide, by decide⟩

/-- Claim C3 (amended): for a list descriptor whose default is config-derived,
a successful lookup strips the whole raw text, splits it on newlines, trims
each resulting line, and parses every line — including lines left empty by
interior blank lines — through the scalar coercer, in line order. -/
theorem C3_list_config_default {α : Type} (p : Parameter α) (cfg : Config)
    (sec key raw : String) (h1 : p._default = none)
    (h2 : p.default_from_config = some (sec, key))
    (h3 : cfg.lookup sec key = some raw) (h4 : p.is_list = true) :
    p.default cfg =
      PValue.list <$> (pySplitNewlines (pyStrip raw)).mapM (fun line => p.parse (pyStrip line)) := by
  simp [Parameter.default, h1, h2, h3, h4]

/-- Witness for C3 (amended) at the concrete store value `"a\n\nb"`. -/
theorem C3_list_config_default_witness :
    pCfgList.default cfgLines =
      PValue.list <$> (pySplitNewlines (pyStrip "a\n\nb")).mapM
        (fun line => pCfgList.parse (pyStrip line)) :=
  C3_list_config_default pCfgList cfgLines "s" "k" "a\n\nb" rfl rfl (by decide) rfl

/-- Claim C4: a grammar match in which every duration field is zero is
treated as a non-match (the ISO-8601 attempt falls through to the shorthand
grammar), and if neither grammar produces a non-zero result, parse fails with
the invalid-time-delta `ParameterException` carrying the original text; in
particular `parse("P0D")` fails — the ISO grammar does match `"P0D"`, with
all fields zero. -/
theorem C4_all_zero_is_no_match :
    isoScan "P0D".data = some ⟨0, 0, 0, 0, 0⟩ ∧
    parseIso8601 "P0D" = none ∧
    parseSimple "P0D" = none ∧
    timeDeltaParse "P0D" =
      .error (.parameterException "Invalid time delta - could not parse P0D") ∧
    (∀ s f, isoScan s.data = some f → hasVal f = false → parseIso8601 s = none) ∧
    (∀ s, parseIso8601 s = none → parseSimple s = none →
      timeDeltaParse s =
        .error (.parameterException ("Invalid time delta - could not parse " ++ s))) := by
  refine ⟨by decide, by decide, by decide, by decide, ?_, ?_⟩
  · intro s f hscan hz
    simp [parseIso8601, applyFields, hscan, hz]
  · intro s h1 h2
    simp [timeDeltaParse, h1, h2]

/-- Witness for C4 applying the two universal parts at `"P0D"`. -/
theorem C4_all_zero_is_no_match_witness :
    parseIso8601 "P0D" = none ∧
    timeDeltaParse "P0D" =
      .error (.parameterException ("Invalid time delta - could not parse " ++ "P0D")) :=
  ⟨C4_all_zero_is_no_match.2.2.2.2.1 "P0D" ⟨0, 0, 0, 0, 0⟩ (by decide) (by decide),
   C4_all_zero_is_no_match.2.2.2.2.2 "P0D" (by decide) (by decide)⟩

/-- Claim C5: `parse("P1W")` equals `parse("1 week")` and both equal 7 days;
`parse("1h30m")` equals `parse("1 h 30 m")` and both equal 90 minutes. -/
theorem C5_duration_equalities :
    timeDeltaParse "P1W" = .ok 604800 ∧
    timeDeltaParse "1 week" = .ok 604800 ∧
    timeDeltaParse "1h30m" = .ok 5400 ∧
    timeDeltaParse "1 h 30 m" = .ok 5400 ∧
    604800 = 7 * 86400 ∧
    5400 = 90 * 60 := by
  refine ⟨by decide, by decide, by decide, by decide, by decide, by decide⟩

/-- Counterexample to C7 as stated: the failure raised for `"yes"` is a
`KeyError` carrying only the lowercased text — no target type name appears in
it — and for `"YES"` the carried text is not even the offending raw text but
its lowercasing. -/
theorem C7_counterexample :
    booleanParse "yes" = .error (.keyError "yes") ∧
    strContainsSub "yes" "bool" = false ∧
    strContainsSub "yes" "Bool" = false ∧
    strContainsSub "yes" "boolean" = false ∧
    strContainsSub "yes" "Boolean" = false ∧
    booleanParse "YES" = .error (.keyError "yes") ∧
    strContainsSub "yes" "YES" = false := by
  refine ⟨by decide, by decide, by decide, by decide, by decide, by decide, by decide⟩

/-- Claim C7 (amended): the Boolean coercer matches `"true"`/`"false"`
case-insensitively, and any other text fails with a `KeyError` carrying only
the lowercased offending text (no target type name). -/
theorem C7_boolean_parse :
    booleanParse "true" = .ok true ∧
    booleanParse "FALSE" = .ok false ∧
    (∀ s : String, pyLower s ≠ "true" → pyLower s ≠ "false" →
      booleanParse s = .error (.keyError (pyLower s))) := by
  refine ⟨by decide, by decide, ?_⟩
  intro s h1 h2
  simp [booleanParse, h1, h2]

/-- Witness for C7 (amended) at `"yes"`. -/
theorem C7_boolean_parse_witness :
    booleanParse "yes" = .error (.keyError (pyLower "yes")) :=
  C7_boolean_parse.2.2 "yes" (by decide) (by decide)

/-- Counterexample to C8 as stated: an `is_global` descriptor whose only
default source is a `default_from_config` entry that no store resolves is
constructed successfully — `__init__` only checks that a source was
supplied, never consulting the store (it takes no store argument at all);
against an empty store the constructed descriptor has no default and
`default` fails. -/
theorem C8_counterexample :
    Parameter.make identityParse 0 none false false true true none (some ("s", "k")) =
      .ok pGlobalCfg ∧
    pGlobalCfg.has_default cfgEmpty = false ∧
    pGlobalCfg.default cfgEmpty =
      .error (.unknownConfig (unknownMsg "s" "k" cfgEmpty.config_paths)) := by
  refine ⟨rfl, by decide, rfl⟩

/-- Claim C8 (amended): construction fails — always with the declaration
`ParameterException` — exactly when both a literal default and
`default_from_config` are supplied, or when `is_global` is set with neither
source supplied; the configuration store is never consulted at construction
time. -/
theorem C8_construction {α : Type} (parse : String → Except PError α) (counter : Nat)
    (d : Option (PValue α)) (is_list is_boolean is_global significant : Bool)
    (desc : Option String) (dfc : Option (String × String)) :
    ((∃ e, Parameter.make parse counter d is_list is_boolean is_global significant desc dfc =
        .error e) ↔
      ((d.isSome = true ∧ dfc.isSome = true) ∨
        (is_global = true ∧ d = none ∧ dfc = none))) ∧
    (∀ e, Parameter.make parse counter d is_list is_boolean is_global significant desc dfc =
        .error e → ∃ msg, e = .parameterException msg) := by
  constructor
  · constructor
    · rintro ⟨e, he⟩
      unfold Parameter.make at he
      split_ifs at he with hg hb
      · rcases Bool.and_eq_true_iff.mp hg with ⟨hg1, hg3⟩
        rcases Bool.and_eq_true_iff.mp hg1 with ⟨hg1, hg2⟩
        exact Or.inr ⟨hg1, Option.isNone_iff_eq_none.mp hg2, Option.isNone_iff_eq_none.mp hg3⟩
      · rcases Bool.and_eq_true_iff.mp hb with ⟨hb1, hb2⟩
        exact Or.inl ⟨hb1, hb2⟩
    · rintro (⟨hd, hdfc⟩ | ⟨hg, hd, hdfc⟩)
      · obtain ⟨x, rfl⟩ := Option.isSome_iff_exists.mp hd
        obtain ⟨y, rfl⟩ := Option.isSome_iff_exists.mp hdfc
        exact ⟨.parameterException "Can only specify either a default or a default_from_config",
          by simp [Parameter.make]⟩
      · refine ⟨.parameterException "Global parameters need default values", ?_⟩
        unfold Parameter.make
        simp [hg, hd, hdfc]
  · intro e he
    unfold Parameter.make at he
    split_ifs at he
    · exact ⟨"Global parameters need default values", (Except.error.inj he).symm⟩
    · exact ⟨"Can only specify either a default or a default_from_config", (Except.error.inj he).symm⟩

/-- Witness for C8 (amended): both default sources supplied at once fail with
the declaration error. -/
theorem C8_construction_witness :
    (∃ e, Parameter.make identityParse 0 (some (.scalar "x")) false false false true none
        (some ("s", "k")) = .error e) ∧
    (∃ msg, (PError.parameterException
        "Can only specify either a default or a default_from_config") =
      .parameterException msg) :=
  ⟨(C8_construction identityParse 0 (some (.scalar "x")) false false false true none
      (some ("s", "k"))).1.mpr (Or.inl ⟨rfl, rfl⟩),
   (C8_construction identityParse 0 (some (.scalar "x")) false false false true none
      (some ("s", "k"))).2
     (.parameterException "Can only specify either a default or a default_from_config") rfl⟩

/-- Claim C9: after `set_default(v)` on a descriptor whose
`default_from_config` misses the store, `default` returns `v` for every store
(the installed literal wins, no lookup happens) while `has_default` still
does the safe lookup and reports false. -/
theorem C9_set_default_disagreement {α : Type} (p : Parameter α) (v : PValue α)
    (sec key : String) (cfg : Config)
    (hdfc : p.default_from_config = some (sec, key))
    (hmiss : cfg.lookup sec key = none) :
    (p.set_default v).has_default cfg = false ∧
    (∀ cfg' : Config, (p.set_default v).default cfg' = .ok v) := by
  constructor
  · simp [Parameter.set_default, Parameter.has_default, hdfc, hmiss]
  · intro cfg'
    simp [Parameter.set_default, Parameter.default]

/-- Witness for C9: the concrete config-only descriptor after
`set_default`, against the empty store (for `has_default`) and even against a
store that does hold the key (for `default`, showing no lookup happens). -/
theorem C9_set_default_disagreement_witness :
    (pCfg.set_default (.scalar "o")).has_default cfgEmpty = false ∧
    (pCfg.set_default (.scalar "o")).default cfgHit = .ok (.scalar "o") :=
  ⟨(C9_set_default_disagreement pCfg (.scalar "o") "s" "k" cfgEmpty rfl rfl).1,
   (C9_set_default_disagreement pCfg (.scalar "o") "s" "k" cfgEmpty rfl rfl).2 cfgHit⟩

/-- Counterexample to C10 as stated: `"1 week 2 days"` begins with the valid
non-zero duration `"1 week"`, yet parse does not ignore the trailing
`" 2 days"` — it extends the match and contributes, giving 9 days instead of
the prefix's 7. -/
theorem C10_counterexample :
    timeDeltaParse "1 week" = .ok 604800 ∧
    timeDeltaParse "1 week 2 days" = .ok 777600 ∧
    (777600 ≠ 604800) := by
  refine ⟨by decide, by decide, by decide⟩

/-- The shorthand scan of `"2 days 1 week"` with any trailing text: the
days group consumes `"2 days "`, and every later unit group fails at the
`'1'`/`'w'` of the out-of-order `"1 week"`, before the trailing text is ever
reached. -/
theorem simpleScan_open_2days (t : List Char) :
    simpleScan ("2 days 1 week".data ++ t) = ⟨0, 2, 0, 0, 0⟩ := rfl

/-- The ISO scan of `"P1Dx"` with any trailing text: the week alternative
fails at `'D'`, the optional day field captures 1, and the optional `T` block
is skipped at `'x'`, before the trailing text is ever reached. -/
theorem isoScan_open_p1dx (t : List Char) :
    isoScan ("P1Dx".data ++ t) = some ⟨0, 1, 0, 0, 0⟩ := rfl

/-- The ISO scan of anything starting with `'2'` fails at once (no leading
`P`). -/
theorem isoScan_open_2days (t : List Char) :
    isoScan ("2 days 1 week".data ++ t) = none := rfl

/-- Claim C10 (amended): both grammars are anchored at the start but not at
the end — text after the end of the match is silently ignored
(`"P1Dxyz"` is 1 day, and stays 1 day for any trailing text after the `x`;
in `"2 days 1 week"` the out-of-order `"1 week"` cannot extend the match and
is discarded, for any trailing text) — but trailing text that validly
extends the match is consumed and contributes (`"1 week 2 days"` is 9
days). -/
theorem C10_prefix_matching :
    timeDeltaParse "P1Dxyz" = .ok 86400 ∧
    timeDeltaParse "2 days 1 week" = .ok 172800 ∧
    timeDeltaParse "1 week 2 days" = .ok 777600 ∧
    (∀ t : String, timeDeltaParse (String.mk ("P1Dx".data ++ t.data)) = .ok 86400) ∧
    (∀ t : String, timeDeltaParse (String.mk ("2 days 1 week".data ++ t.data)) = .ok 172800) := by
  refine ⟨by decide, by decide, by decide, ?_, ?_⟩
  · intro t
    have h1 : parseIso8601 (String.mk ("P1Dx".data ++ t.data)) = some 86400 := by
      show applyFields (isoScan (String.mk ("P1Dx".data ++ t.data)).data) = some 86400
      rw [show (String.mk ("P1Dx".data ++ t.data)).data = "P1Dx".data ++ t.data from rfl,
        isoScan_open_p1dx]
      rfl
    simp only [timeDeltaParse]
    rw [h1]
  · intro t
    have hI : parseIso8601 (String.mk ("2 days 1 week".data ++ t.data)) = none := by
      show applyFields (isoScan (String.mk ("2 days 1 week".data ++ t.data)).data) = none
      rw [show (String.mk ("2 days 1 week".data ++ t.data)).data =
            "2 days 1 week".data ++ t.data from rfl,
        isoScan_open_2days]
      rfl
    have hS : parseSimple (String.mk ("2 days 1 week".data ++ t.data)) = some 172800 := by
      show applyFields (some (simpleScan (String.mk ("2 days 1 week".data ++ t.data)).data)) =
        some 172800
      rw [show (String.mk ("2 days 1 week".data ++ t.data)).data =
            "2 days 1 week".data ++ t.data from rfl,
        simpleScan_open_2days]
      rfl
    simp only [timeDeltaParse]
    rw [hI, hS]

/-! ## DateHour round-trip lemmas -/

/-- Decimal digit characters are digits. -/
theorem digitChar_isDigit (k : Nat) (hk : k < 10) : (Nat.digitChar k).isDigit = true := by
  interval_cases k <;> decide

/-- `charVal` inverts `Nat.digitChar` below 10. -/
theorem charVal_digitChar (k : Nat) (hk : k < 10) : charVal (Nat.digitChar k) = k := by
  interval_cases k <;> decide

/-- The year scan recovers a zero-padded four-digit year and the following
literal hyphen. -/
theorem yearDash (y : Nat) (hy : y ≤ 9999) (rest : List Char) :
    stepDash (scanYear4 (pad4L y ++ '-' :: rest)) = some (y, rest) := by
  have h1 : y / 1000 < 10 := by omega
  have h2 : y / 100 % 10 < 10 := by omega
  have h3 : y / 10 % 10 < 10 := by omega
  have h4 : y % 10 < 10 := by omega
  have hpad : pad4L y ++ '-' :: rest =
      Nat.digitChar (y / 1000) :: Nat.digitChar (y / 100 % 10) ::
        Nat.digitChar (y / 10 % 10) :: Nat.digitChar (y % 10) :: '-' :: rest := by
    simp [pad4L, Nat.mod_eq_of_lt h1]
  rw [hpad]
  simp only [scanYear4]
  rw [if_pos ⟨digitChar_isDigit _ h1, digitChar_isDigit _ h2,
    digitChar_isDigit _ h3, digitChar_isDigit _ h4⟩]
  simp only [stepDash, if_pos rfl]
  rw [charVal_digitChar _ h1, charVal_digitChar _ h2, charVal_digitChar _ h3,
    charVal_digitChar _ h4]
  have : ((y / 1000 * 10 + y / 100 % 10) * 10 + y / 10 % 10) * 10 + y % 10 = y := by omega
  rw [this]
  simp

/-- The month scan on two digit characters followed by a hyphen: the regex
`1[0-2]|0[1-9]|[1-9]` followed by the literal `-` accepts exactly the
zero-padded months 01..12 and recovers their value. -/
theorem monthDash_core (q r : Nat) (hq : q < 10) (hr : r < 10) (rest : List Char) :
    stepDash (scanMonth (Nat.digitChar q :: Nat.digitChar r :: '-' :: rest)) =
      if 1 ≤ q * 10 + r ∧ q * 10 + r ≤ 12 then some (q * 10 + r, rest) else none := by
  interval_cases q <;> interval_cases r <;> rfl

/-- `monthDash_core` restated for the zero-padded rendering of a month
value. -/
theorem monthDash_pad (m : Nat) (hm : m ≤ 99) (rest : List Char) :
    stepDash (scanMonth (pad2L m ++ '-' :: rest)) =
      if 1 ≤ m ∧ m ≤ 12 then some (m, rest) else none := by
  have hq : m / 10 < 10 := by omega
  have hr : m % 10 < 10 := by omega
  have hpad : pad2L m ++ '-' :: rest =
      Nat.digitChar (m / 10) :: Nat.digitChar (m % 10) :: '-' :: rest := by
    simp [pad2L, Nat.mod_eq_of_lt hq]
  rw [hpad, monthDash_core _ _ hq hr]
  have : m / 10 * 10 + m % 10 = m := by omega
  rw [this]

/-- The day scan on two digit characters followed by `T`: the regex
`3[01]|[12]\d|0[1-9]|[1-9]` followed by the literal `T` accepts exactly the
zero-padded days 01..31 and recovers their value. -/
theorem dayT_core (q r : Nat) (hq : q < 10) (hr : r < 10) (rest : List Char) :
    stepT (scanDay (Nat.digitChar q :: Nat.digitChar r :: 'T' :: rest)) =
      if 1 ≤ q * 10 + r ∧ q * 10 + r ≤ 31 then some (q * 10 + r, rest) else none := by
  interval_cases q <;> interval_cases r <;> rfl

/-- `dayT_core` restated for the zero-padded rendering of a day value. -/
theorem dayT_pad (d : Nat) (hd : d ≤ 99) (rest : List Char) :
    stepT (scanDay (pad2L d ++ 'T' :: rest)) =
      if 1 ≤ d ∧ d ≤ 31 then some (d, rest) else none := by
  have hq : d / 10 < 10 := by omega
  have hr : d % 10 < 10 := by omega
  have hpad : pad2L d ++ 'T' :: rest =
      Nat.digitChar (d / 10) :: Nat.digitChar (d % 10) :: 'T' :: rest := by
    simp [pad2L, Nat.mod_eq_of_lt hq]
  rw [hpad, dayT_core _ _ hq hr]
  have : d / 10 * 10 + d % 10 = d := by omega
  rw [this]

/-- The hour scan on two final digit characters: the regex `2[0-3]|[0-1]\d|\d`
with the end-of-input requirement accepts exactly the zero-padded hours
00..23 and recovers their value. -/
theorem hourEnd_core (q r : Nat) (hq : q < 10) (hr : r < 10) :
    stepEnd (scanHour [Nat.digitChar q, Nat.digitChar r]) =
      if q * 10 + r ≤ 23 then some (q * 10 + r) else none := by
  interval_cases q <;> interval_cases r <;> rfl

/-- `hourEnd_core` restated for the zero-padded rendering of an hour of at
most 23. -/
theorem hourEnd_pad (h : Nat) (hh : h ≤ 23) :
    stepEnd (scanHour (pad2L h)) = some h := by
  have hq : h / 10 < 10 := by omega
  have hr : h % 10 < 10 := by omega
  have hpad : pad2L h = [Nat.digitChar (h / 10), Nat.digitChar (h % 10)] := by
    simp [pad2L, Nat.mod_eq_of_lt hq]
  rw [hpad, hourEnd_core _ _ hq hr]
  have h23 : h / 10 * 10 + h % 10 ≤ 23 := by omega
  rw [if_pos h23]
  have : h / 10 * 10 + h % 10 = h := by omega
  rw [this]

/-- The complete strptime match on a zero-padded rendering: it succeeds
exactly when month and day are in range, and then recovers the four
components. -/
theorem dateHourScan_fmt (y m d h : Nat) (hy : y ≤ 9999) (hm : m ≤ 99)
    (hd : d ≤ 99) (hh : h ≤ 23) :
    dateHourScan (strftimeYmdTH ⟨y, m, d, h⟩).data =
      if (1 ≤ m ∧ m ≤ 12) ∧ (1 ≤ d ∧ d ≤ 31) then some ⟨y, m, d, h⟩ else none := by
  have hdata : (strftimeYmdTH ⟨y, m, d, h⟩).data =
      pad4L y ++ '-' :: (pad2L m ++ '-' :: (pad2L d ++ 'T' :: pad2L h)) := rfl
  unfold dateHourScan
  rw [hdata, yearDash y hy]
  simp only [Option.some_bind]
  rw [monthDash_pad m hm]
  by_cases h1 : 1 ≤ m ∧ m ≤ 12
  · rw [if_pos h1]
    simp only [Option.some_bind]
    rw [dayT_pad d hd]
    by_cases h2 : 1 ≤ d ∧ d ≤ 31
    · rw [if_pos h2, if_pos ⟨h1, h2⟩]
      simp only [Option.some_bind]
      rw [hourEnd_pad h hh]
      rfl
    · rw [if_neg h2, if_neg (by tauto)]
      rfl
  · rw [if_neg h1, if_neg (by tauto)]
    rfl

/-- When parsing a zero-padded rendering succeeds, the parsed components are
exactly the rendered ones. -/
theorem dateHourParse_fmt_ok (y m d h : Nat) (hy : y ≤ 9999) (hm : m ≤ 99)
    (hd : d ≤ 99) (hh : h ≤ 23) (v : DateTimeYMDH)
    (hp : dateHourParse (strftimeYmdTH ⟨y, m, d, h⟩) = .ok v) : v = ⟨y, m, d, h⟩ := by
  unfold dateHourParse at hp
  rw [dateHourScan_fmt y m d h hy hm hd hh] at hp
  by_cases h1 : (1 ≤ m ∧ m ≤ 12) ∧ (1 ≤ d ∧ d ≤ 31)
  · rw [if_pos h1] at hp
    simp only [] at hp
    split_ifs at hp
    exact (Except.ok.inj hp).symm
  · rw [if_neg h1] at hp
    simp at hp

/-- Counterexample to C6 as stated: CPython's strptime directives `%m`, `%d`
and `%H` also accept non-zero-padded fields, so `parse` accepts
`"2020-1-2T5"` (yielding 2020-01-02 hour 5) although that string is not of
the strict 13-character `YYYY-MM-DDTHH` shape — acceptance is not limited to
the strict form. -/
theorem C6_counterexample :
    dateHourParse "2020-1-2T5" = .ok ⟨2020, 1, 2, 5⟩ ∧
    ¬ isStrictDateHourString "2020-1-2T5" := by
  constructor
  · decide
  · rintro ⟨y, m, d, h, hy, hm, hd, hh, hs⟩
    have hlen := congrArg String.length hs
    have h13 : (strftimeYmdTH ⟨y, m, d, h⟩).length = 13 := rfl
    exact absurd (hlen.trans h13) (by decide)

/-- Claim C6 (amended): the DateHour coercer accepts every valid strict
`YYYY-MM-DDTHH` string — `parse("2020-01-02T15")` yields the instant with
hour 15 — and also lenient non-zero-padded variants; for every strict string
that parses (and whose year is at least 1900, which Python 2's strftime
requires), `serialize(parse(s))` returns the identical string. -/
theorem C6_datehour_roundtrip :
    dateHourParse "2020-01-02T15" = .ok ⟨2020, 1, 2, 15⟩ ∧
    dateHourSerialize ⟨2020, 1, 2, 15⟩ = .ok "2020-01-02T15" ∧
    (∀ s v, isStrictDateHourString s → dateHourParse s = .ok v → 1900 ≤ v.year →
      dateHourSerialize v = .ok s) ∧
    dateHourSerialize ⟨1800, 1, 2, 3⟩ =
      .error (.valueError
        "year is before 1900; the datetime strftime() methods require year >= 1900") := by
  refine ⟨by decide, by decide, ?_, by decide⟩
  rintro s v ⟨y, m, d, h, hy, hm, hd, hh, rfl⟩ hp hyr
  have hv : v = ⟨y, m, d, h⟩ := dateHourParse_fmt_ok y m d h hy hm hd hh v hp
  subst hv
  have hyr' : 1900 ≤ y := by simpa using hyr
  unfold dateHourSerialize
  rw [if_neg (by simpa using Nat.not_lt.mpr hyr')]

/-- Witness for C6 (amended): the round-trip applied at
`"2020-01-02T15"`. -/
theorem C6_datehour_roundtrip_witness :
    dateHourSerialize ⟨2020, 1, 2, 15⟩ = .ok "2020-01-02T15" :=
  C6_datehour_roundtrip.2.2.1 "2020-01-02T15" ⟨2020, 1, 2, 15⟩
    ⟨2020, 1, 2, 15, by omega, by omega, by omega, by omega, by decide⟩
    (by decide) (by decide)

end Luigi
